import Mathlib

/-!
Verification development for the video-summarizer pipeline.

Shallow embedding of the processing pipeline of the repository:
the orchestrator (`src/main.py: process_latest_video`), the transcript
acquisition chain (`src/services/transcriber.py`), the summarizer
(`src/services/summarizer.py`), the state store (`config/config.py`) and
the notifier's body formatting (`src/services/email_service.py`).
External collaborators (YouTube caption API, yt-dlp, the Whisper API, the
HF model, S3, SMTP) are modelled as environments carrying the outcome of
each external call; side effects are recorded as explicit event traces.
-/

namespace VideoSummarizer

/-! ## Data model -/

/-- An item returned by the Source Poller: `{"video_id": ..., "title": ...}`. -/
structure VideoItem where
  video_id : String
  title : String
  deriving DecidableEq, Repr

/-- A caption track as exposed by `youtube_transcript_api`: whether it is
auto-generated, its language code, and the outcome of `fetch()` (the list of
entry texts, or an exception message). -/
structure Track where
  is_generated : Bool
  language_code : String
  fetchResult : Except String (List String)
  deriving Repr

/-- Environment of the caption stage: the outcome of
`YouTubeTranscriptApi.list_transcripts(video_id)` (the track list, or an
exception message). -/
structure CaptionEnv where
  listResult : Except String (List Track)

/-- Observable side effects of one cycle. -/
inductive Ev where
  | loadState
  | poll
  | fetchTrack (is_generated : Bool) (language_code : String)
  | downloadAudio (video_id : String)
  | whisperCall (video_id : String)
  | saveState (video_id : String) (title : String)
  | summarizeCall (transcript : String)
  | sendSummary (ok : Bool)
  | sendError (ok : Bool)
  | sendNoNew (ok : Bool)
  deriving DecidableEq, Repr

/-! ## TranscriptAcquirer (`src/services/transcriber.py`) -/

/-- `" ".join(entries)` from the transcript entry texts. -/
def joinTexts (entries : List String) : String :=
  String.intercalate " " entries

/-- Fetch one chosen track and join its entry texts; the fetch may raise.
Embeds the `chosen.fetch()` / `" ".join(...)` steps of
`get_youtube_transcript`. -/
def fetchJoin (t : Track) : List Ev × Except String (Option String) :=
  ([Ev.fetchTrack t.is_generated t.language_code],
   match t.fetchResult with
   | .error e => .error e
   | .ok entries => .ok (some (joinTexts entries)))

/-- The body of the `try:` block of `WhisperTranscriber.get_youtube_transcript`
(transcriber.py lines 73-188): list tracks, prefer a manual track (English
first, else the first manual one), otherwise an auto-generated track (same
preference), otherwise `None`.  Exceptions from listing or fetching propagate
in the `Except` channel. -/
def get_youtube_transcript_try (env : CaptionEnv) :
    List Ev × Except String (Option String) :=
  match env.listResult with
  | .error e => ([], .error e)
  | .ok tracks =>
    match tracks.filter (fun t => !t.is_generated) with
    | m :: ms =>
      fetchJoin (((m :: ms).find? (fun t => t.language_code == "en")).getD m)
    | [] =>
      match tracks.filter (fun t => t.is_generated) with
      | a :: more =>
        fetchJoin (((a :: more).find? (fun t => t.language_code == "en")).getD a)
      | [] => ([], .ok none)

/-- `WhisperTranscriber.get_youtube_transcript` (transcriber.py lines 58-213):
the `try:` body above with every exception handler (`NoTranscriptFound`,
`TranscriptsDisabled`, `VideoUnavailable`, bare `Exception`) returning
`None`. -/
def get_youtube_transcript (env : CaptionEnv) : List Ev × Option String :=
  match get_youtube_transcript_try env with
  | (evs, .ok o) => (evs, o)
  | (evs, .error _) => (evs, none)

/-- Environment of `WhisperTranscriber.transcribe`: the caption environment,
the outcome of `download_audio` (which wraps any failure in a
`RuntimeError`) and of the Whisper API call. -/
structure TranscribeEnv where
  captions : CaptionEnv
  downloadResult : Except String Unit
  whisperResult : Except String String

/-- `WhisperTranscriber.transcribe` (transcriber.py lines 304-388): use the
YouTube transcript when `get_youtube_transcript` returned non-`None`,
otherwise download the audio (a failure raises and propagates) and call
Whisper (a failure is wrapped in a `RuntimeError` and propagates). -/
def transcribe (env : TranscribeEnv) (video_id : String) :
    List Ev × Except String String :=
  match get_youtube_transcript env.captions with
  | (cevs, some t) => (cevs, .ok t)
  | (cevs, none) =>
    match env.downloadResult with
    | .error e =>
      (cevs ++ [Ev.downloadAudio video_id],
       .error ("Failed to download audio for " ++ video_id ++ ": " ++ e))
    | .ok _ =>
      match env.whisperResult with
      | .error e =>
        (cevs ++ [Ev.downloadAudio video_id, Ev.whisperCall video_id],
         .error ("Whisper transcription failed for " ++ video_id ++ ": " ++ e))
      | .ok t =>
        (cevs ++ [Ev.downloadAudio video_id, Ev.whisperCall video_id], .ok t)

/-! ## Summarizer (`src/services/summarizer.py`) -/

/-- The two-field summary result (`SummaryBundle` TypedDict). -/
structure SummaryBundle where
  short_summary : String
  comprehensive_summary : String
  deriving DecidableEq, Repr

/-- JSON values as produced by `json.loads` (numbers restricted to integers;
floating point is outside this model). -/
inductive Json where
  | str (s : String)
  | num (n : Int)
  | bool (b : Bool)
  | null
  | arr (items : List Json)
  | obj (fields : List (String × Json))
  deriving Repr

/-- Whitespace accepted between JSON tokens by `json.loads`. -/
def isJsonWs (c : Char) : Bool :=
  c = ' ' || c = '\t' || c = '\n' || c = '\x0d'

def skipWs (l : List Char) : List Char := l.dropWhile isJsonWs

/-- Parse the body of a JSON string literal (after the opening quote),
handling the common escapes. -/
def parseStringBody : Nat → List Char → List Char → Option (String × List Char)
  | 0, _, _ => none
  | _, [], _ => none
  | Nat.succ fuel, c :: rest, acc =>
    if c = '"' then some (String.mk acc.reverse, rest)
    else if c = '\\' then
      match rest with
      | '"' :: r => parseStringBody fuel r ('"' :: acc)
      | '\\' :: r => parseStringBody fuel r ('\\' :: acc)
      | '/' :: r => parseStringBody fuel r ('/' :: acc)
      | 'n' :: r => parseStringBody fuel r ('\n' :: acc)
      | 't' :: r => parseStringBody fuel r ('\t' :: acc)
      | 'r' :: r => parseStringBody fuel r ('\x0d' :: acc)
      | _ => none
    else parseStringBody fuel rest (c :: acc)

def digitsToNat (l : List Char) : Nat :=
  l.foldl (fun n c => 10 * n + (c.toNat - 48)) 0

/-- Parse a JSON integer literal (floats are outside this model). -/
def parseNumber (l : List Char) : Option (Json × List Char) :=
  let p := match l with
    | '-' :: r => (true, r)
    | _ => (false, l)
  let ds := p.2.takeWhile Char.isDigit
  let rest := p.2.dropWhile Char.isDigit
  if ds.isEmpty then none
  else
    match rest with
    | '.' :: _ => none
    | 'e' :: _ => none
    | 'E' :: _ => none
    | _ =>
      some (Json.num (if p.1 then -(digitsToNat ds : Int) else (digitsToNat ds : Int)),
        rest)

mutual

/-- Recursive-descent JSON value parser (fuel-indexed), mirroring
`json.loads` on the fragment of JSON used by the pipeline. -/
def parseValue : Nat → List Char → Option (Json × List Char)
  | 0, _ => none
  | Nat.succ fuel, l =>
    match skipWs l with
    | [] => none
    | c :: rest =>
      if c = '"' then
        match parseStringBody (rest.length + 1) rest [] with
        | some (s, r) => some (Json.str s, r)
        | none => none
      else if c = '\x7b' then
        match skipWs rest with
        | '\x7d' :: r => some (Json.obj [], r)
        | _ => parseFields fuel rest []
      else if c = '[' then
        match skipWs rest with
        | ']' :: r => some (Json.arr [], r)
        | _ => parseItems fuel rest []
      else if c = 't' then
        match rest with
        | 'r' :: 'u' :: 'e' :: r => some (Json.bool true, r)
        | _ => none
      else if c = 'f' then
        match rest with
        | 'a' :: 'l' :: 's' :: 'e' :: r => some (Json.bool false, r)
        | _ => none
      else if c = 'n' then
        match rest with
        | 'u' :: 'l' :: 'l' :: r => some (Json.null, r)
        | _ => none
      else
        parseNumber (c :: rest)

/-- Parse the members of a JSON object (after the opening brace).  As in
Python, a duplicated key keeps the later value (see `dictGet`). -/
def parseFields : Nat → List Char → List (String × Json) →
    Option (Json × List Char)
  | 0, _, _ => none
  | Nat.succ fuel, l, acc =>
    match skipWs l with
    | '"' :: rest =>
      match parseStringBody (rest.length + 1) rest [] with
      | some (key, r1) =>
        match skipWs r1 with
        | ':' :: r2 =>
          match parseValue fuel r2 with
          | some (v, r3) =>
            match skipWs r3 with
            | ',' :: r4 => parseFields fuel r4 (acc ++ [(key, v)])
            | '\x7d' :: r4 => some (Json.obj (acc ++ [(key, v)]), r4)
            | _ => none
          | none => none
        | _ => none
      | none => none
    | _ => none

/-- Parse the items of a JSON array (after the opening bracket). -/
def parseItems : Nat → List Char → List Json → Option (Json × List Char)
  | 0, _, _ => none
  | Nat.succ fuel, l, acc =>
    match parseValue fuel l with
    | some (v, r1) =>
      match skipWs r1 with
      | ',' :: r2 => parseItems fuel r2 (acc ++ [v])
      | ']' :: r2 => some (Json.arr (acc ++ [v]), r2)
      | _ => none
    | none => none

end

/-- `json.loads`: parse a complete JSON document, rejecting trailing
content. -/
def json_loads (s : String) : Option Json :=
  match parseValue (2 * s.length + 2) s.data with
  | some (v, rest) => if (skipWs rest).isEmpty then some v else none
  | none => none

/-- Python dict lookup on the decoded object: a duplicated key keeps the
last occurrence, as `json.loads` builds the dict left to right. -/
def dictGet (fields : List (String × Json)) (key : String) : Option Json :=
  (fields.reverse.find? (fun kv => kv.1 == key)).map (·.2)

/-! ### `_extract_json_from_markdown` and `_parse_response`

`_extract_json_from_markdown` runs
`re.search(r"```(?:json)?\s*\n?(.*?)\n?```", text, re.DOTALL)`.  The
functions below implement that regex's behaviour directly: leftmost match,
greedy `(?:json)?` and `\s*` (safe because neither can consume a backtick),
and the lazy group `(.*?)` stopping at the first closing fence, with a
single newline before the fence absorbed by `\n?`. -/

def backtick : Char := Char.ofNat 96

def startsTicks : List Char → Bool
  | a :: b :: c :: _ => a = backtick && b = backtick && c = backtick
  | _ => false

/-- Python's `\s` on `str` (ASCII part) and the characters removed by
`str.strip()`. -/
def isPySpace (c : Char) : Bool :=
  c = ' ' || c = '\t' || c = '\n' || c = '\x0d' || c = '\x0b' || c = '\x0c'

/-- `str.strip()`. -/
def pyStrip (s : String) : String :=
  String.mk (((s.data.dropWhile isPySpace).reverse.dropWhile isPySpace).reverse)

/-- The lazy group `(.*?)\n?` scanning for the closing fence: the shortest
prefix whose end reaches three backticks, never including a single newline
immediately before the fence. -/
def findClose : List Char → Option (List Char)
  | [] => none
  | c :: rest =>
    if startsTicks (c :: rest) then some []
    else if c = '\n' && startsTicks rest then some []
    else
      match findClose rest with
      | some g => some (c :: g)
      | none => none

/-- Attempt the fence pattern at this position: three backticks, optional
`json`, greedy whitespace, then the lazy group up to the closing fence. -/
def matchFenceAt (l : List Char) : Option (List Char) :=
  if startsTicks l then
    let afterTicks := l.drop 3
    let afterJson :=
      match afterTicks with
      | 'j' :: 's' :: 'o' :: 'n' :: r => r
      | _ => afterTicks
    findClose (afterJson.dropWhile isPySpace)
  else none

/-- `re.search`: try the fence pattern at each position, leftmost first. -/
def searchFence : List Char → Option (List Char)
  | [] => none
  | c :: rest =>
    match matchFenceAt (c :: rest) with
    | some g => some g
    | none => searchFence rest

/-- `TranscriptSummarizer._extract_json_from_markdown` (summarizer.py lines
241-255): the inner content of a fenced code block if one is present
(stripped), otherwise the whole text stripped. -/
def extract_json_from_markdown (text : String) : String :=
  match searchFence text.data with
  | some g => pyStrip (String.mk g)
  | none => pyStrip text

/-- The greedy tail of `re.search(r"\{.*\}", s, re.DOTALL)`: the prefix of
the remainder ending at the last closing brace. -/
def takeToLastClose : List Char → Option (List Char)
  | [] => none
  | c :: rest =>
    match takeToLastClose rest with
    | some g => some (c :: g)
    | none => if c = '\x7d' then some [c] else none

/-- `re.search(r"\{.*\}", s, re.DOTALL)`: from the first opening brace that
has a closing brace after it (necessarily the first opening brace overall)
to the last closing brace. -/
def braceSearch : List Char → Option (List Char)
  | [] => none
  | c :: rest =>
    if c = '\x7b' then (takeToLastClose rest).map (fun g => c :: g)
    else braceSearch rest

mutual

/-- Number of nodes of a JSON value; strictly dominates its nesting depth,
so it serves as recursion fuel below. -/
def jsize : Json → Nat
  | .str _ => 1
  | .num _ => 1
  | .bool _ => 1
  | .null => 1
  | .arr items => 1 + jsizeList items
  | .obj fields => 1 + jsizeFields fields

def jsizeList : List Json → Nat
  | [] => 0
  | v :: rest => jsize v + jsizeList rest

def jsizeFields : List (String × Json) → Nat
  | [] => 0
  | kv :: rest => jsize kv.2 + jsizeFields rest

end

/-- Fuel-indexed form of Python `repr` on JSON-decoded values (strings in
single quotes); the fuel exceeds the value's depth at every use. -/
def pyReprF : Nat → Json → String
  | 0, _ => ""
  | Nat.succ _, Json.str s => "\x27" ++ s ++ "\x27"
  | Nat.succ _, Json.num n => toString n
  | Nat.succ _, Json.bool b => if b then "True" else "False"
  | Nat.succ _, Json.null => "None"
  | Nat.succ fuel, Json.arr items =>
    "[" ++ String.intercalate ", " (items.map (pyReprF fuel)) ++ "]"
  | Nat.succ fuel, Json.obj fields =>
    "\x7b" ++ String.intercalate ", "
        (fields.map (fun kv => "\x27" ++ kv.1 ++ "\x27: " ++ pyReprF fuel kv.2))
      ++ "\x7d"

/-- Python `repr` on JSON-decoded values, used by `str()` on lists and
dicts. -/
def pyRepr (v : Json) : String := pyReprF (jsize v) v

/-- Python `str()` on JSON-decoded values: the identity on strings, `repr`
otherwise (`str(True) = "True"`, `str(None) = "None"`, ...). -/
def pyStr : Json → String
  | .str s => s
  | v => pyRepr v

def spacesStr (n : Nat) : String := String.mk (List.replicate n ' ')

/-- JSON string quoting as produced by `json.dumps`. -/
def jsonQuote (s : String) : String :=
  "\"" ++ String.join (s.data.map (fun c =>
      if c = '"' then "\\\""
      else if c = '\\' then "\\\\"
      else if c = '\n' then "\\n"
      else if c = '\t' then "\\t"
      else if c = '\x0d' then "\\r"
      else String.singleton c)) ++ "\""

/-- Fuel-indexed form of `json.dumps(v, indent=2)` at the given current
indentation; the fuel exceeds the value's depth at every use. -/
def dumps2F : Nat → Nat → Json → String
  | 0, _, _ => ""
  | Nat.succ _, _, Json.str s => jsonQuote s
  | Nat.succ _, _, Json.num n => toString n
  | Nat.succ _, _, Json.bool b => if b then "true" else "false"
  | Nat.succ _, _, Json.null => "null"
  | Nat.succ _, _, Json.arr [] => "[]"
  | Nat.succ fuel, ind, Json.arr items =>
    "[\n" ++ String.intercalate ",\n"
        (items.map (fun v => spacesStr (ind + 2) ++ dumps2F fuel (ind + 2) v))
      ++ "\n" ++ spacesStr ind ++ "]"
  | Nat.succ _, _, Json.obj [] => "\x7b\x7d"
  | Nat.succ fuel, ind, Json.obj fields =>
    "\x7b\n" ++ String.intercalate ",\n"
        (fields.map (fun kv =>
          spacesStr (ind + 2) ++ jsonQuote kv.1 ++ ": " ++ dumps2F fuel (ind + 2) kv.2))
      ++ "\n" ++ spacesStr ind ++ "\x7d"

/-- `json.dumps(v, indent=2)` at the given current indentation. -/
def dumps2 (ind : Nat) (v : Json) : String := dumps2F (jsize v) ind v

/-- Field coercion of `_parse_response` (summarizer.py lines 305-326): a
dict value is serialized with `json.dumps(..., indent=2)`, a list value is
joined with spaces after `str()` on each item, anything else is `str()`-ed
and stripped. -/
def coerceField (v : Json) : String :=
  match v with
  | .obj _ => dumps2 0 v
  | .arr items => String.intercalate " " (items.map pyStr)
  | _ => pyStrip (pyStr v)

/-- The key lookup, coercion and emptiness check of `_parse_response`
(summarizer.py lines 293-333) applied to the decoded object's fields: a
missing key raises, both values are coerced, and the bundle is rejected if
either coerced field is empty. -/
def bundleFromFields (fields : List (String × Json)) : Except String SummaryBundle :=
  match dictGet fields "short_summary" with
  | none => .error "Model response missing summary keys: short_summary"
  | some short_raw =>
    match dictGet fields "comprehensive_summary" with
    | none => .error "Model response missing summary keys: comprehensive_summary"
    | some comprehensive_raw =>
      let short := coerceField short_raw
      let comprehensive := coerceField comprehensive_raw
      if short = "" || comprehensive = "" then
        .error "Summaries must not be empty."
      else .ok ⟨short, comprehensive⟩

/-- The post-parse part of `_parse_response` (summarizer.py lines 293-333):
subscripting a non-dict raises a `TypeError`; a dict goes through
`bundleFromFields`. -/
def bundleFromParsed (parsed : Json) : Except String SummaryBundle :=
  match parsed with
  | .obj fields => bundleFromFields fields
  | _ => .error "TypeError: the decoded response is not a JSON object"

/-- `TranscriptSummarizer._parse_response` (summarizer.py lines 257-333):
reject an empty response, extract fenced content, extract a brace-matched
object substring, `json.loads` the result, then look up and coerce the two
fields. -/
def parse_response (response_text : String) : Except String SummaryBundle :=
  if pyStrip response_text = "" then .error "Model response was empty."
  else
    let cleaned := extract_json_from_markdown response_text
    let cleaned2 :=
      match braceSearch cleaned.data with
      | some g => String.mk g
      | none => cleaned
    match json_loads cleaned2 with
    | none => .error "Model response was not valid JSON"
    | some parsed => bundleFromParsed parsed

/-- Environment of `generate_summaries`: the outcome of `_load_model` and of
the raw model generation inside `_call_model`. -/
structure SummEnv where
  loadModelResult : Except String Unit
  callModelResult : String → Except String String

/-- Side effects of the summarizer: loading the model and invoking
generation. -/
inductive SEv where
  | modelLoad
  | modelCall (prompt : String)
  deriving DecidableEq, Repr

/-- `TranscriptSummarizer._build_prompt` (summarizer.py lines 163-189). -/
def build_prompt (transcript : String) : String :=
  let system_message :=
    "You are a senior financial analyst who writes clear summaries for busy " ++
    "executives. Produce a JSON object with keys \x27short_summary\x27 (<=80 words) " ++
    "and \x27comprehensive_summary\x27 (3-5 paragraphs with actionable insights). " ++
    "Keep factual accuracy high, avoid speculation, and mention key numbers " ++
    "when present. Return only valid JSON without any markdown formatting."
  let user_message := "Transcript:\n" ++ transcript
  "<|begin_of_text|><|start_header_id|>system<|end_header_id|>\n\n" ++
    system_message ++ "<|eot_id|><|start_header_id|>user<|end_header_id|>\n\n" ++
    user_message ++ "<|eot_id|><|start_header_id|>assistant<|end_header_id|>\n\n"

/-- `TranscriptSummarizer._call_model` (summarizer.py lines 191-239): any
failure (including an empty generation) is wrapped in
`ValueError("Model generation failed: ...")`; a successful generation is
returned stripped. -/
def call_model (env : SummEnv) (prompt : String) : Except String String :=
  match env.callModelResult prompt with
  | .error e => .error ("Model generation failed: " ++ e)
  | .ok resp =>
    if pyStrip resp = "" then
      .error "Model generation failed: Model returned an empty response."
    else .ok (pyStrip resp)

/-- `TranscriptSummarizer.generate_summaries` (summarizer.py lines 139-161):
reject a whitespace-only transcript before loading the model; otherwise
load the model, build the prompt, generate and parse. -/
def generate_summaries (env : SummEnv) (transcript : String) :
    List SEv × Except String SummaryBundle :=
  let normalized := pyStrip transcript
  if normalized = "" then
    ([], .error "Transcript is empty; nothing to summarize.")
  else
    match env.loadModelResult with
    | .error e => ([SEv.modelLoad], .error e)
    | .ok _ =>
      let prompt := build_prompt normalized
      match call_model env prompt with
      | .error e => ([SEv.modelLoad, SEv.modelCall prompt], .error e)
      | .ok resp => ([SEv.modelLoad, SEv.modelCall prompt], parse_response resp)

/-! ## StateStore (`config/config.py`) -/

/-- S3 backend environment: whether `S3StateManager` could be imported
(boto3 installed), and the outcome of remote `load_state`/`save_state`. -/
structure S3Env where
  available : Bool
  loadResult : Except String (List (String × Json))
  saveResult : Except String Unit

/-- The configuration fields consulted by the state store, together with the
content of the local state file (`none` when the file is missing). -/
structure StateConfig where
  use_aws : Bool
  s3_state_bucket : Option String
  localFile : Option String

/-- Observable side effects of the state store. -/
inductive LEv where
  | s3Load
  | s3Save
  | warnFallback
  | localRead
  | localWrite (video_id : String) (title : String)
  deriving DecidableEq, Repr

/-- Python truthiness of an optional string: `None` and `""` are falsy. -/
def optStrTruthy : Option String -> Bool
  | none => false
  | some s => !(s == "")

/-- `_load_state_file` (config.py lines 73-89): a missing file, invalid
JSON, or a non-object document all yield the empty dict. -/
def load_state_file (file : Option String) : List (String × Json) :=
  match file with
  | none => []
  | some text =>
    match json_loads text with
    | some (Json.obj fields) => fields
    | _ => []

/-- `load_last_video_id` (config.py lines 231-267): prefer S3 when
configured (raising if boto3 is missing); any S3 error logs a warning and
falls back to the local file. -/
def load_last_video_id (cfg : StateConfig) (s3 : S3Env) :
    List LEv × Except String (Option Json) :=
  if cfg.use_aws && optStrTruthy cfg.s3_state_bucket then
    if !s3.available then
      ([], .error "S3 state bucket configured but boto3 not installed.")
    else
      match s3.loadResult with
      | .ok state_data =>
        ([LEv.s3Load], .ok (dictGet state_data "last_video_id"))
      | .error _ =>
        ([LEv.s3Load, LEv.warnFallback, LEv.localRead],
         .ok (dictGet (load_state_file cfg.localFile) "last_video_id"))
  else
    ([LEv.localRead], .ok (dictGet (load_state_file cfg.localFile) "last_video_id"))

/-- `save_last_video_id` (config.py lines 270-310): prefer S3 when
configured (raising if boto3 is missing); any S3 error logs a warning and
falls through to the local file write. -/
def save_last_video_id (cfg : StateConfig) (s3 : S3Env) (video_id : String)
    (title : String) : List LEv × Except String Unit :=
  if cfg.use_aws && optStrTruthy cfg.s3_state_bucket then
    if !s3.available then
      ([], .error "S3 state bucket configured but boto3 not installed.")
    else
      match s3.saveResult with
      | .ok _ => ([LEv.s3Save], .ok ())
      | .error _ =>
        ([LEv.s3Save, LEv.warnFallback, LEv.localWrite video_id title], .ok ())
  else
    ([LEv.localWrite video_id title], .ok ())

/-! ## Orchestrator (`src/main.py: process_latest_video`) -/

/-- Environment of one cycle: the stored last-processed id, the poller's
item, the transcriber environment, the outcomes of summarization and of
each email send, and the optional components. -/
structure CycleEnv where
  lastVideoId : Option String
  latest : Option VideoItem
  tenv : TranscribeEnv
  hasSummarizer : Bool
  summarizeResult : String → Except String SummaryBundle
  hasEmail : Bool
  notifyNoNewVideos : Bool
  summarySendOk : Bool
  errorSendOk : Bool
  noNewSendOk : Bool

/-- The `summaries`/`error_reason` computation of `process_latest_video`
(main.py lines 95-120): skip summarization when the transcript strips to
nothing or no summarizer is configured; otherwise call the summarizer and
catch any failure. -/
def summarizeStep (env : CycleEnv) (transcript : String) :
    List Ev × Option SummaryBundle :=
  if pyStrip transcript = "" then ([], none)
  else if env.hasSummarizer then
    match env.summarizeResult transcript with
    | .ok b => ([Ev.summarizeCall transcript], some b)
    | .error _ => ([Ev.summarizeCall transcript], none)
  else ([], none)

/-- The email dispatch of `process_latest_video` (main.py lines 122-143):
send the summary email when summaries exist, else the error email; any
failure is caught. -/
def emailStep (env : CycleEnv) (summaries : Option SummaryBundle) : List Ev :=
  if env.hasEmail then
    match summaries with
    | some _ => [Ev.sendSummary env.summarySendOk]
    | none => [Ev.sendError env.errorSendOk]
  else []

/-- `process_latest_video` (main.py lines 32-143): load state, poll, return
on no item or an unchanged id (attempting the optional no-new notification,
whose failure is caught); on a new item transcribe (a failure propagates),
persist the state, then summarize and email with every failure caught. -/
def process_latest_video (env : CycleEnv) : List Ev × Option String :=
  match env.latest with
  | none => ([Ev.loadState, Ev.poll], none)
  | some latest =>
    if env.lastVideoId = some latest.video_id then
      if env.notifyNoNewVideos && env.hasEmail then
        ([Ev.loadState, Ev.poll, Ev.sendNoNew env.noNewSendOk], none)
      else
        ([Ev.loadState, Ev.poll], none)
    else
      match transcribe env.tenv latest.video_id with
      | (tevs, .error e) => ([Ev.loadState, Ev.poll] ++ tevs, some e)
      | (tevs, .ok transcript) =>
        ([Ev.loadState, Ev.poll] ++ tevs ++
            Ev.saveState latest.video_id latest.title ::
            ((summarizeStep env transcript).1 ++
              emailStep env (summarizeStep env transcript).2),
         none)

/-- The persisted processing state after replaying a cycle's event trace
over an initial state: each `saveState` is a full overwrite. -/
def finalState (init : Option (String × String)) : List Ev → Option (String × String)
  | [] => init
  | Ev.saveState v t :: rest => finalState (some (v, t)) rest
  | _ :: rest => finalState init rest

/-! ## Notifier body formatting (`src/services/email_service.py`) -/

/-- Character-wise form of Python `html.escape` (with its default
`quote=True`); equivalent to the sequence of `str.replace` calls it
performs, since no replacement output contains a character replaced by a
later pass on the original characters. -/
def escapeChars : List Char → List Char
  | [] => []
  | c :: rest =>
    (if c = '&' then "&amp;".data
     else if c = '<' then "&lt;".data
     else if c = '>' then "&gt;".data
     else if c = '"' then "&quot;".data
     else if c = '\x27' then "&#x27;".data
     else [c]) ++ escapeChars rest

/-- Python `html.escape` with its default `quote=True`. -/
def html_escape (s : String) : String := String.mk (escapeChars s.data)

/-- Character-wise form of `.replace("\n", "<br/>")` (the pattern is a
single character). -/
def brChars : List Char → List Char
  | [] => []
  | c :: rest => (if c = '\n' then "<br/>".data else [c]) ++ brChars rest

/-- `.replace("\n", "<br/>")`. -/
def newlineToBr (s : String) : String := String.mk (brChars s.data)

/-- `EmailService._format_plain_text` (email_service.py lines 110-121). -/
def format_plain_text (video_title : String) (summaries : SummaryBundle) : String :=
  "Summaries for: " ++ video_title ++ "\n\nShort summary:\n" ++
    summaries.short_summary ++ "\n\nComprehensive summary:\n" ++
    summaries.comprehensive_summary ++ "\n"

/-- `EmailService._format_html_body` (email_service.py lines 123-145). -/
def format_html_body (video_title : String) (summaries : SummaryBundle) : String :=
  let short_html := html_escape summaries.short_summary
  let comprehensive_html := newlineToBr (html_escape summaries.comprehensive_summary)
  let safe_title := html_escape video_title
  "\n        <html>\n            <body>\n                <h2>Summaries for: "
    ++ safe_title ++
    "</h2>\n                <h3>Short summary</h3>\n                <p>"
    ++ short_html ++
    "</p>\n                <h3>Comprehensive summary</h3>\n                <p>"
    ++ comprehensive_html ++
    "</p>\n            </body>\n        </html>\n        "

/-- `EmailService._format_error_plain_text` (email_service.py lines 240-259). -/
def format_error_plain_text (video_title : String) (error_reason : String) : String :=
  "Error generating summaries for: " ++ video_title ++ "\n\nReason: " ++
    error_reason ++ "\n\nPlease check the logs for more details."

/-- `EmailService._format_error_html_body` (email_service.py lines 261-287). -/
def format_error_html_body (video_title : String) (error_reason : String) : String :=
  let safe_title := html_escape video_title
  let safe_reason := newlineToBr (html_escape error_reason)
  "\n        <html>\n            <body>\n                <h2>Error generating summaries for: "
    ++ safe_title ++
    "</h2>\n                <h3>Reason</h3>\n                <p>"
    ++ safe_reason ++
    "</p>\n                <p><em>Please check the logs for more details.</em></p>\n            </body>\n        </html>\n        "

/-- `EmailService._format_no_new_videos_plain_text` (email_service.py lines
378-400); an empty title is falsy in Python and treated like `None`. -/
def format_no_new_videos_plain_text (last_video_title : Option String) : String :=
  match last_video_title with
  | some t =>
    if t = "" then
      "No new videos since last check.\n\nThe system will continue monitoring for new uploads."
    else
      "No new videos since last check.\n\nLast processed video: " ++ t ++
        "\n\nThe system will continue monitoring for new uploads."
  | none =>
    "No new videos since last check.\n\nThe system will continue monitoring for new uploads."

/-- `EmailService._format_no_new_videos_html_body` (email_service.py lines
402-433). -/
def format_no_new_videos_html_body (last_video_title : Option String) : String :=
  let noTitle :=
    "\n        <html>\n            <body>\n                <h2>No new videos since last check</h2>\n                <p><em>The system will continue monitoring for new uploads.</em></p>\n            </body>\n        </html>\n        "
  match last_video_title with
  | some t =>
    if t = "" then noTitle
    else
      "\n        <html>\n            <body>\n                <h2>No new videos since last check</h2>\n                <p>Last processed video: <strong>"
        ++ html_escape t ++
        "</strong></p>\n                <p><em>The system will continue monitoring for new uploads.</em></p>\n            </body>\n        </html>\n        "
  | none => noTitle

/-! ## Helper lemmas -/

/-- Events a transcript-acquisition attempt can emit. -/
def isAcq : Ev → Bool
  | .fetchTrack _ _ => true
  | .downloadAudio _ => true
  | .whisperCall _ => true
  | _ => false

/-- An auto-caption fetch attempt. -/
def isAutoFetch : Ev → Bool
  | .fetchTrack true _ => true
  | _ => false

theorem get_youtube_transcript_fst (cenv : CaptionEnv) :
    (get_youtube_transcript cenv).1 = (get_youtube_transcript_try cenv).1 := by
  unfold get_youtube_transcript
  rcases h : get_youtube_transcript_try cenv with ⟨evs, r⟩
  cases r <;> simp

theorem gyt_try_trace_acq (cenv : CaptionEnv) :
    ∀ e ∈ (get_youtube_transcript_try cenv).1, isAcq e = true := by
  unfold get_youtube_transcript_try
  split
  · simp
  · split
    · intro e he
      simp [fetchJoin] at he
      subst he
      rfl
    · split
      · intro e he
        simp [fetchJoin] at he
        subst he
        rfl
      · simp

theorem gyt_trace_acq (cenv : CaptionEnv) :
    ∀ e ∈ (get_youtube_transcript cenv).1, isAcq e = true := by
  rw [get_youtube_transcript_fst]
  exact gyt_try_trace_acq cenv

theorem transcribe_trace_acq (tenv : TranscribeEnv) (vid : String) :
    ∀ e ∈ (transcribe tenv vid).1, isAcq e = true := by
  unfold transcribe
  rcases hyt : get_youtube_transcript tenv.captions with ⟨cevs, yt⟩
  have hc : ∀ e ∈ cevs, isAcq e = true := by
    have := gyt_trace_acq tenv.captions
    rw [hyt] at this
    exact this
  cases yt with
  | some t => exact hc
  | none =>
    cases tenv.downloadResult with
    | error e =>
      intro e he
      rcases List.mem_append.mp he with h | h
      · exact hc e h
      · simp at h
        subst h
        rfl
    | ok _ =>
      cases tenv.whisperResult <;>
        · intro e he
          rcases List.mem_append.mp he with h | h
          · exact hc e h
          · rcases List.mem_cons.mp h with h1 | h1
            · subst h1; rfl
            · simp at h1; subst h1; rfl

theorem finalState_no_save :
    ∀ (l : List Ev) (init : Option (String × String)),
      (∀ v t, Ev.saveState v t ∉ l) → finalState init l = init := by
  intro l
  induction l with
  | nil => intro init _; rfl
  | cons e rest ih =>
    intro init h
    have hrest : ∀ v t, Ev.saveState v t ∉ rest := by
      intro v t hm
      exact h v t (List.mem_cons_of_mem _ hm)
    cases e <;>
      first
      | exact absurd (List.mem_cons_self _ _) (h _ _)
      | exact ih init hrest

theorem finalState_append (init : Option (String × String)) (l1 l2 : List Ev) :
    finalState init (l1 ++ l2) = finalState (finalState init l1) l2 := by
  induction l1 generalizing init with
  | nil => rfl
  | cons e rest ih => cases e <;> exact ih _

/-! ## Claims -/

/-- C1: for every cycle in which the poller returns an item whose video id
equals the id stored in the processing state, `process_latest_video`
performs no transcript acquisition, no summarization, and no state write:
it returns normally after at most attempting the optional no-new-item
notification. -/
theorem c1_same_id_no_processing (env : CycleEnv) (item : VideoItem)
    (hl : env.latest = some item)
    (hid : env.lastVideoId = some item.video_id) :
    (process_latest_video env).2 = none ∧
    (∀ v t, Ev.saveState v t ∉ (process_latest_video env).1) ∧
    (∀ s, Ev.summarizeCall s ∉ (process_latest_video env).1) ∧
    (∀ b l, Ev.fetchTrack b l ∉ (process_latest_video env).1) ∧
    (∀ v, Ev.downloadAudio v ∉ (process_latest_video env).1) ∧
    (∀ v, Ev.whisperCall v ∉ (process_latest_video env).1) ∧
    ((process_latest_video env).1 = [Ev.loadState, Ev.poll] ∨
     (process_latest_video env).1 =
       [Ev.loadState, Ev.poll, Ev.sendNoNew env.noNewSendOk]) := by
  unfold process_latest_video
  rw [hl]
  simp only [hid]
  by_cases h : env.notifyNoNewVideos && env.hasEmail <;> simp [h]

/-- Environment for the C1 witness: the poller returns the stored item
again. -/
def envC1 : CycleEnv :=
  { lastVideoId := some "A"
  , latest := some ⟨"A", "X"⟩
  , tenv := ⟨⟨.ok []⟩, .ok (), .ok "w"⟩
  , hasSummarizer := true
  , summarizeResult := fun _ => .error "e"
  , hasEmail := true
  , notifyNoNewVideos := true
  , summarySendOk := true
  , errorSendOk := true
  , noNewSendOk := true }

theorem c1_same_id_no_processing_witness :
    envC1.latest = some ⟨"A", "X"⟩ ∧ envC1.lastVideoId = some "A" ∧
    (process_latest_video envC1).2 = none ∧
    (process_latest_video envC1).1 = [Ev.loadState, Ev.poll, Ev.sendNoNew true] := by
  refine ⟨rfl, rfl, (c1_same_id_no_processing envC1 ⟨"A", "X"⟩ rfl rfl).1, rfl⟩

/-- C2: for every cycle in which transcript acquisition succeeds for a new
item, the state write with the new item's id and title happens before any
summarization attempt, the cycle emits exactly that one state write, and
the final persisted state is the new item regardless of the summarization
or notification outcome, so the item is not reprocessed later. -/
theorem summarizeStep_trace (env : CycleEnv) (transcript : String) :
    (summarizeStep env transcript).1 = [] ∨
    (summarizeStep env transcript).1 = [Ev.summarizeCall transcript] := by
  unfold summarizeStep
  split
  · simp
  · split
    · split <;> simp
    · simp

theorem summarizeStep_no_save (env : CycleEnv) (transcript : String) :
    ∀ v t, Ev.saveState v t ∉ (summarizeStep env transcript).1 := by
  intro v t
  rcases summarizeStep_trace env transcript with h | h <;> simp [h]

theorem emailStep_no_save (env : CycleEnv) (s : Option SummaryBundle) :
    ∀ v t, Ev.saveState v t ∉ emailStep env s := by
  intro v t
  unfold emailStep
  split
  · split <;> simp
  · simp

theorem process_new_ok_shape (env : CycleEnv) (item : VideoItem)
    (tevs : List Ev) (tr : String)
    (hl : env.latest = some item)
    (hid : env.lastVideoId ≠ some item.video_id)
    (htr : transcribe env.tenv item.video_id = (tevs, .ok tr)) :
    process_latest_video env =
      ([Ev.loadState, Ev.poll] ++ tevs ++
        Ev.saveState item.video_id item.title ::
          ((summarizeStep env tr).1 ++ emailStep env (summarizeStep env tr).2),
       none) := by
  unfold process_latest_video
  rw [hl]
  simp only [if_neg hid]
  rw [htr]

/-- C2: for every cycle in which transcript acquisition succeeds for a new
item, the state write with the new item's id and title happens before any
summarization attempt, the cycle emits exactly that one state write, and
the final persisted state is the new item regardless of the summarization
or notification outcome, so the item is not reprocessed later. -/
theorem c2_state_write_before_summarize (env : CycleEnv) (item : VideoItem)
    (tr : String)
    (hl : env.latest = some item)
    (hid : env.lastVideoId ≠ some item.video_id)
    (ht : (transcribe env.tenv item.video_id).2 = .ok tr) :
    ∃ pre post,
      (process_latest_video env).1 =
        pre ++ Ev.saveState item.video_id item.title :: post ∧
      (∀ s, Ev.summarizeCall s ∉ pre) ∧
      (∀ v t, Ev.saveState v t ∉ pre) ∧
      (∀ v t, Ev.saveState v t ∉ post) ∧
      (process_latest_video env).2 = none ∧
      (∀ init, finalState init (process_latest_video env).1 =
        some (item.video_id, item.title)) := by
  rcases htr : transcribe env.tenv item.video_id with ⟨tevs, r⟩
  rw [htr] at ht
  simp only at ht
  subst ht
  have htevs : ∀ e ∈ tevs, isAcq e = true := by
    have := transcribe_trace_acq env.tenv item.video_id
    rw [htr] at this
    exact this
  have hpre_nosum : ∀ s, Ev.summarizeCall s ∉ [Ev.loadState, Ev.poll] ++ tevs := by
    intro s hm
    rcases List.mem_append.mp hm with h | h
    · simp at h
    · exact absurd (htevs _ h) (by simp [isAcq])
  have hpre_nosave : ∀ v t, Ev.saveState v t ∉ [Ev.loadState, Ev.poll] ++ tevs := by
    intro v t hm
    rcases List.mem_append.mp hm with h | h
    · simp at h
    · exact absurd (htevs _ h) (by simp [isAcq])
  have hshape := process_new_ok_shape env item tevs tr hl hid htr
  have hpost : ∀ v t, Ev.saveState v t ∉
      (summarizeStep env tr).1 ++ emailStep env (summarizeStep env tr).2 := by
    intro v t hm
    rcases List.mem_append.mp hm with h | h
    · exact summarizeStep_no_save env tr v t h
    · exact emailStep_no_save env _ v t h
  refine ⟨[Ev.loadState, Ev.poll] ++ tevs,
    (summarizeStep env tr).1 ++ emailStep env (summarizeStep env tr).2,
    ?_, hpre_nosum, hpre_nosave, hpost, ?_, ?_⟩
  · rw [hshape]
  · rw [hshape]
  · intro init
    rw [hshape]
    have hsplit : [Ev.loadState, Ev.poll] ++ tevs ++
        Ev.saveState item.video_id item.title ::
          ((summarizeStep env tr).1 ++ emailStep env (summarizeStep env tr).2)
        = ([Ev.loadState, Ev.poll] ++ tevs) ++
          (Ev.saveState item.video_id item.title ::
            ((summarizeStep env tr).1 ++ emailStep env (summarizeStep env tr).2)) := by
      simp
    show finalState init ([Ev.loadState, Ev.poll] ++ tevs ++
        Ev.saveState item.video_id item.title ::
          ((summarizeStep env tr).1 ++ emailStep env (summarizeStep env tr).2)) = _
    rw [hsplit, finalState_append, finalState_no_save _ _ hpre_nosave]
    show finalState (some (item.video_id, item.title))
      ((summarizeStep env tr).1 ++ emailStep env (summarizeStep env tr).2) = _
    exact finalState_no_save _ _ hpost

/-- Environment for the C2 witness: a new item whose auto caption succeeds
and whose summarization then fails. -/
def envC2 : CycleEnv :=
  { lastVideoId := none
  , latest := some ⟨"B", "Y"⟩
  , tenv := ⟨⟨.ok [⟨true, "en", .ok ["hello"]⟩]⟩, .error "dl", .error "w"⟩
  , hasSummarizer := true
  , summarizeResult := fun _ => .error "parse error"
  , hasEmail := true
  , notifyNoNewVideos := false
  , summarySendOk := true
  , errorSendOk := false
  , noNewSendOk := true }

theorem c2_state_write_before_summarize_witness :
    envC2.latest = some ⟨"B", "Y"⟩ ∧ ¬(envC2.lastVideoId = some "B") ∧
    (transcribe envC2.tenv "B").2 = .ok "hello" ∧
    (process_latest_video envC2).2 = none ∧
    finalState none (process_latest_video envC2).1 = some ("B", "Y") := by
  obtain ⟨pre, post, hp⟩ :=
    c2_state_write_before_summarize envC2 ⟨"B", "Y"⟩ "hello" rfl
      (by simp [envC2]) rfl
  exact ⟨rfl, by simp [envC2], rfl, hp.2.2.2.2.1, hp.2.2.2.2.2 none⟩

/-- C3: for every cycle in which transcript acquisition fails (transcribe
raises), the cycle aborts with that error, no state write occurs, and the
persisted state is unchanged, so the same item is retried next cycle. -/
theorem c3_acquisition_failure_aborts (env : CycleEnv) (item : VideoItem)
    (e : String)
    (hl : env.latest = some item)
    (hid : env.lastVideoId ≠ some item.video_id)
    (ht : (transcribe env.tenv item.video_id).2 = .error e) :
    (process_latest_video env).2 = some e ∧
    (∀ v t, Ev.saveState v t ∉ (process_latest_video env).1) ∧
    (∀ init, finalState init (process_latest_video env).1 = init) := by
  rcases htr : transcribe env.tenv item.video_id with ⟨tevs, r⟩
  rw [htr] at ht
  simp only at ht
  subst ht
  have htevs : ∀ ev ∈ tevs, isAcq ev = true := by
    have := transcribe_trace_acq env.tenv item.video_id
    rw [htr] at this
    exact this
  have hshape : process_latest_video env =
      ([Ev.loadState, Ev.poll] ++ tevs, some e) := by
    unfold process_latest_video
    rw [hl]
    simp only [if_neg hid]
    rw [htr]
  have hnosave : ∀ v t, Ev.saveState v t ∉ [Ev.loadState, Ev.poll] ++ tevs := by
    intro v t hm
    rcases List.mem_append.mp hm with h | h
    · simp at h
    · exact absurd (htevs _ h) (by simp [isAcq])
  refine ⟨by rw [hshape], by rw [hshape]; exact hnosave, ?_⟩
  intro init
  rw [hshape]
  exact finalState_no_save _ _ hnosave

/-- Environment for the C3 witness: caption listing raises and the audio
download also fails, so `transcribe` raises. -/
def envC3 : CycleEnv :=
  { lastVideoId := some "A"
  , latest := some ⟨"B", "Y"⟩
  , tenv := ⟨⟨.error "listing failed"⟩, .error "dl failed", .error "w"⟩
  , hasSummarizer := true
  , summarizeResult := fun _ => .error "parse error"
  , hasEmail := true
  , notifyNoNewVideos := false
  , summarySendOk := true
  , errorSendOk := true
  , noNewSendOk := true }

theorem c3_acquisition_failure_aborts_witness :
    envC3.latest = some ⟨"B", "Y"⟩ ∧ ¬(envC3.lastVideoId = some "B") ∧
    (transcribe envC3.tenv "B").2 =
      .error "Failed to download audio for B: dl failed" ∧
    (process_latest_video envC3).2 =
      some "Failed to download audio for B: dl failed" ∧
    finalState (some ("A", "T")) (process_latest_video envC3).1 =
      some ("A", "T") := by
  have h := c3_acquisition_failure_aborts envC3 ⟨"B", "Y"⟩
    "Failed to download audio for B: dl failed" rfl (by simp [envC3]) rfl
  exact ⟨rfl, by simp [envC3], rfl, h.1, h.2.2 (some ("A", "T"))⟩

theorem gyt_try_trace_shape (cenv : CaptionEnv) :
    (get_youtube_transcript_try cenv).1 = [] ∨
    ∃ b l, (get_youtube_transcript_try cenv).1 = [Ev.fetchTrack b l] := by
  unfold get_youtube_transcript_try
  split
  · left; rfl
  · split
    · right; exact ⟨_, _, rfl⟩
    · split
      · right; exact ⟨_, _, rfl⟩
      · left; rfl

theorem gyt_trace_of_ok_manual (cenv : CaptionEnv) (tracks : List Track)
    (m : Track) (ms : List Track)
    (hok : cenv.listResult = .ok tracks)
    (hm : tracks.filter (fun t => !t.is_generated) = m :: ms) :
    ∃ l, (get_youtube_transcript cenv).1 = [Ev.fetchTrack false l] := by
  rw [get_youtube_transcript_fst]
  unfold get_youtube_transcript_try
  rw [hok]
  simp only
  rw [hm]
  simp only
  set chosen := ((m :: ms).find? fun t => t.language_code == "en").getD m with hc
  have hmem : chosen ∈ m :: ms := by
    cases hf : (m :: ms).find? (fun t => t.language_code == "en") with
    | some x =>
      rw [hc, hf]
      exact List.mem_of_find?_eq_some hf
    | none =>
      rw [hc, hf]
      exact List.mem_cons_self _ _
  have hmem2 : chosen ∈ tracks.filter (fun t => !t.is_generated) := by
    rw [hm]; exact hmem
  have hgen : chosen.is_generated = false := by
    have := (List.mem_filter.mp hmem2).2
    simpa using this
  exact ⟨chosen.language_code, by simp [fetchJoin, hgen]⟩

theorem gyt_trace_of_ok_auto (cenv : CaptionEnv) (tracks : List Track)
    (a : Track) (more : List Track)
    (hok : cenv.listResult = .ok tracks)
    (hman : tracks.filter (fun t => !t.is_generated) = [])
    (ha : tracks.filter (fun t => t.is_generated) = a :: more) :
    ∃ l, (get_youtube_transcript cenv).1 = [Ev.fetchTrack true l] := by
  rw [get_youtube_transcript_fst]
  unfold get_youtube_transcript_try
  rw [hok]
  simp only
  rw [hman]
  simp only
  rw [ha]
  simp only
  set chosen := ((a :: more).find? fun t => t.language_code == "en").getD a with hc
  have hmem : chosen ∈ a :: more := by
    cases hf : (a :: more).find? (fun t => t.language_code == "en") with
    | some x =>
      rw [hc, hf]
      exact List.mem_of_find?_eq_some hf
    | none =>
      rw [hc, hf]
      exact List.mem_cons_self _ _
  have hmem2 : chosen ∈ tracks.filter (fun t => t.is_generated) := by
    rw [ha]; exact hmem
  have hgen : chosen.is_generated = true := (List.mem_filter.mp hmem2).2
  exact ⟨chosen.language_code, by simp [fetchJoin, hgen]⟩

/-- Caption environment refuting C4 as stated: a manual track whose fetch
raises, alongside an available auto track. -/
def cexCaptionsC4 : CaptionEnv :=
  ⟨.ok [⟨false, "en", .error "manual fetch failed"⟩, ⟨true, "en", .ok ["hi"]⟩]⟩

/-- C4 counterexample: with a manual track whose fetch raises and an auto
track present, the earlier (manual) strategy raised, yet the auto-caption
strategy is never attempted: the trace holds only the manual fetch, and the
caption stage yields `none`, routing directly to the media fallback.  This
refutes "a later strategy ... is always attempted if every earlier strategy
raised or returned nothing": the method-level exception handler of
`get_youtube_transcript` skips the auto-caption step. -/
theorem c4_counterexample :
    get_youtube_transcript cexCaptionsC4 = ([Ev.fetchTrack false "en"], none) ∧
    (get_youtube_transcript cexCaptionsC4).1.filter isAutoFetch = [] ∧
    (get_youtube_transcript_try cexCaptionsC4).2 = .error "manual fetch failed" :=
  ⟨rfl, rfl, rfl⟩

/-- C4 (amended): the strategies are ordered manual caption, auto caption,
media fallback.  A later strategy is never attempted once an earlier one
returned text; auto-caption lookup is attempted exactly when the listing
succeeded, no manual track exists and an auto track exists (so a
manual-caption fetch error skips the auto step and goes straight to the
media fallback); the media fallback is attempted exactly when the caption
stage yields no text. -/
theorem c4_fallback_order (tenv : TranscribeEnv) (vid : String) :
    (∀ t, (get_youtube_transcript tenv.captions).2 = some t →
      transcribe tenv vid = ((get_youtube_transcript tenv.captions).1, .ok t) ∧
      Ev.downloadAudio vid ∉ (transcribe tenv vid).1 ∧
      Ev.whisperCall vid ∉ (transcribe tenv vid).1) ∧
    ((get_youtube_transcript tenv.captions).2 = none →
      Ev.downloadAudio vid ∈ (transcribe tenv vid).1) ∧
    (∀ tracks, tenv.captions.listResult = .ok tracks →
      (∀ m ms, tracks.filter (fun t => !t.is_generated) = m :: ms →
        (get_youtube_transcript tenv.captions).1.filter isAutoFetch = []) ∧
      (∀ a more, tracks.filter (fun t => !t.is_generated) = [] →
        tracks.filter (fun t => t.is_generated) = a :: more →
        (get_youtube_transcript tenv.captions).1.filter isAutoFetch ≠ [])) ∧
    (∀ e, tenv.captions.listResult = .error e →
      (get_youtube_transcript tenv.captions).1 = [] ∧
      Ev.downloadAudio vid ∈ (transcribe tenv vid).1) := by
  have hfetchOnly : ∀ e ∈ (get_youtube_transcript tenv.captions).1,
      isAcq e = true := gyt_trace_acq tenv.captions
  have hfallback : (get_youtube_transcript tenv.captions).2 = none →
      Ev.downloadAudio vid ∈ (transcribe tenv vid).1 := by
    intro hnone
    unfold transcribe
    rcases hy : get_youtube_transcript tenv.captions with ⟨cevs, yt⟩
    rw [hy] at hnone
    simp only at hnone
    subst hnone
    cases tenv.downloadResult with
    | error e2 => simp
    | ok _ =>
      cases tenv.whisperResult with
      | error e3 => simp
      | ok t => simp
  refine ⟨?_, hfallback, ?_, ?_⟩
  · intro t ht
    have hshape : transcribe tenv vid =
        ((get_youtube_transcript tenv.captions).1, .ok t) := by
      unfold transcribe
      rcases hy : get_youtube_transcript tenv.captions with ⟨cevs, yt⟩
      rw [hy] at ht
      simp only at ht
      subst ht
      rfl
    refine ⟨hshape, ?_, ?_⟩ <;> rw [hshape] <;> intro hmem
    · have hshape2 := gyt_try_trace_shape tenv.captions
      rw [← get_youtube_transcript_fst] at hshape2
      rcases hshape2 with h | ⟨b, l, h⟩ <;> rw [h] at hmem <;> simp at hmem
    · have hshape2 := gyt_try_trace_shape tenv.captions
      rw [← get_youtube_transcript_fst] at hshape2
      rcases hshape2 with h | ⟨b, l, h⟩ <;> rw [h] at hmem <;> simp at hmem
  · intro tracks hok
    constructor
    · intro m ms hm
      obtain ⟨l, hl⟩ := gyt_trace_of_ok_manual tenv.captions tracks m ms hok hm
      rw [hl]
      simp [isAutoFetch]
    · intro a more hman ha
      obtain ⟨l, hl⟩ := gyt_trace_of_ok_auto tenv.captions tracks a more hok hman ha
      rw [hl]
      simp [isAutoFetch]
  · intro e herr
    have htrace : (get_youtube_transcript tenv.captions).1 = [] := by
      rw [get_youtube_transcript_fst]
      unfold get_youtube_transcript_try
      rw [herr]
    have hnone : (get_youtube_transcript tenv.captions).2 = none := by
      unfold get_youtube_transcript get_youtube_transcript_try
      rw [herr]
    exact ⟨htrace, hfallback hnone⟩

/-- Transcriber environment for the C4 (amended) witness: no manual track,
one English auto track that fetches successfully. -/
def tenvC4 : TranscribeEnv :=
  ⟨⟨.ok [⟨true, "en", .ok ["hello", "world"]⟩]⟩, .error "dl", .error "w"⟩

theorem c4_fallback_order_witness :
    (get_youtube_transcript tenvC4.captions).2 = some "hello world" ∧
    tenvC4.captions.listResult = .ok [⟨true, "en", .ok ["hello", "world"]⟩] ∧
    ([⟨true, "en", .ok ["hello", "world"]⟩] : List Track).filter
      (fun t => !t.is_generated) = [] ∧
    transcribe tenvC4 "B" =
      ((get_youtube_transcript tenvC4.captions).1, .ok "hello world") ∧
    (get_youtube_transcript tenvC4.captions).1.filter isAutoFetch ≠ [] := by
  have h := c4_fallback_order tenvC4 "B"
  refine ⟨rfl, rfl, rfl, (h.1 "hello world" rfl).1, ?_⟩
  exact (h.2.2.1 [⟨true, "en", .ok ["hello", "world"]⟩] rfl).2
    ⟨true, "en", .ok ["hello", "world"]⟩ [] rfl rfl

/-- C9: `get_youtube_transcript` is total over caption-lookup failures: any
exception raised inside its `try:` body (listing or fetching) is converted
to the `None` result, never propagates to the caller, and routes the cycle
into the media fallback. -/
theorem c9_caption_errors_contained (tenv : TranscribeEnv) (vid e : String)
    (h : (get_youtube_transcript_try tenv.captions).2 = .error e) :
    (get_youtube_transcript tenv.captions).2 = none ∧
    (get_youtube_transcript tenv.captions).1 =
      (get_youtube_transcript_try tenv.captions).1 ∧
    Ev.downloadAudio vid ∈ (transcribe tenv vid).1 := by
  have h2 : (get_youtube_transcript tenv.captions).2 = none := by
    unfold get_youtube_transcript
    rcases hx : get_youtube_transcript_try tenv.captions with ⟨evs, r⟩
    rw [hx] at h
    simp only at h
    subst h
    rfl
  refine ⟨h2, get_youtube_transcript_fst tenv.captions, ?_⟩
  unfold transcribe
  rcases hy : get_youtube_transcript tenv.captions with ⟨cevs, yt⟩
  rw [hy] at h2
  simp only at h2
  subst h2
  cases tenv.downloadResult with
  | error e2 => simp
  | ok _ =>
    cases tenv.whisperResult with
    | error e3 => simp
    | ok t => simp

/-- Transcriber environment for the C9 witness: the caption listing itself
raises an unknown exception. -/
def tenvC9 : TranscribeEnv :=
  ⟨⟨.error "api down"⟩, .ok (), .ok "whisper text"⟩

theorem c9_caption_errors_contained_witness :
    (get_youtube_transcript_try tenvC9.captions).2 = .error "api down" ∧
    (get_youtube_transcript tenvC9.captions).2 = none ∧
    Ev.downloadAudio "B" ∈ (transcribe tenvC9 "B").1 := by
  have h := c9_caption_errors_contained tenvC9 "B" "api down" rfl
  exact ⟨rfl, h.1, h.2.2⟩

/-- C5: for every transcript that is empty after stripping surrounding
whitespace, `generate_summaries` raises the validation failure without
loading the model or calling it (the side-effect trace is empty). -/
theorem c5_empty_transcript_rejected (env : SummEnv) (transcript : String)
    (h : pyStrip transcript = "") :
    generate_summaries env transcript =
      ([], .error "Transcript is empty; nothing to summarize.") := by
  simp [generate_summaries, h]

/-- Summarizer environment for the C5 witness: the model would succeed if
it were ever consulted. -/
def envC5 : SummEnv :=
  ⟨.ok (), fun _ =>
    .ok "\x7b\"short_summary\":\"a\",\"comprehensive_summary\":\"b\"\x7d"⟩

theorem c5_empty_transcript_rejected_witness :
    pyStrip "   " = "" ∧
    generate_summaries envC5 "   " =
      ([], .error "Transcript is empty; nothing to summarize.") :=
  ⟨rfl, c5_empty_transcript_rejected envC5 "   " rfl⟩

/-- The fenced model output of C6. -/
def fencedResponse : String :=
  "```json\n\x7b\"short_summary\":\"a\",\"comprehensive_summary\":\"b\"\x7d\n```"

/-- The raw model output of C6. -/
def rawResponse : String :=
  "\x7b\"short_summary\":\"a\",\"comprehensive_summary\":\"b\"\x7d"

/-- C6: response parsing first extracts the inner content of a fenced code
block, then a brace-matched object substring, then parses JSON; the fenced
input and the raw input parse to the same bundle. -/
theorem c6_fencing_idempotent :
    extract_json_from_markdown fencedResponse = rawResponse ∧
    parse_response fencedResponse = parse_response rawResponse ∧
    parse_response fencedResponse =
      .ok { short_summary := "a", comprehensive_summary := "b" } :=
  ⟨rfl, rfl, rfl⟩

/-- C7: in the post-parse stage, non-string field values are coerced to
readable strings rather than rejected, and a returned bundle always has
both fields non-empty: when both keys are present the result is exactly
the coerced pair, unless a coerced field is empty, in which case parsing
fails; and any successfully returned bundle has two non-empty fields. -/
theorem c7_coercion_and_nonempty (fields : List (String × Json))
    (short_raw comprehensive_raw : Json)
    (h1 : dictGet fields "short_summary" = some short_raw)
    (h2 : dictGet fields "comprehensive_summary" = some comprehensive_raw) :
    bundleFromParsed (Json.obj fields) =
      (if coerceField short_raw = "" || coerceField comprehensive_raw = "" then
        .error "Summaries must not be empty."
      else .ok ⟨coerceField short_raw, coerceField comprehensive_raw⟩) ∧
    (∀ p b, bundleFromParsed p = .ok b →
      b.short_summary ≠ "" ∧ b.comprehensive_summary ≠ "") := by
  have key : ∀ (fs : List (String × Json)) (sr cr : Json),
      dictGet fs "short_summary" = some sr →
      dictGet fs "comprehensive_summary" = some cr →
      bundleFromFields fs =
        (if coerceField sr = "" || coerceField cr = "" then
          .error "Summaries must not be empty."
        else .ok ⟨coerceField sr, coerceField cr⟩) := by
    intro fs sr cr hg1 hg2
    unfold bundleFromFields
    rw [hg1, hg2]
  constructor
  · show bundleFromFields fields = _
    exact key fields short_raw comprehensive_raw h1 h2
  · intro p b hb
    cases p with
    | obj fields2 =>
      replace hb : bundleFromFields fields2 = Except.ok b := hb
      cases hg1 : dictGet fields2 "short_summary" with
      | none =>
        unfold bundleFromFields at hb
        rw [hg1] at hb
        exact Except.noConfusion hb
      | some sr =>
        cases hg2 : dictGet fields2 "comprehensive_summary" with
        | none =>
          unfold bundleFromFields at hb
          rw [hg1, hg2] at hb
          exact Except.noConfusion hb
        | some cr =>
          rw [key fields2 sr cr hg1 hg2] at hb
          by_cases hc : coerceField sr = "" || coerceField cr = ""
          · rw [if_pos hc] at hb
            exact Except.noConfusion hb
          · rw [if_neg hc] at hb
            have hb2 : b = ⟨coerceField sr, coerceField cr⟩ := by
              injection hb with h
              exact h.symm
            subst hb2
            simp only [Bool.or_eq_true, decide_eq_true_eq, not_or] at hc
            exact hc
    | str s => exact Except.noConfusion hb
    | num n => exact Except.noConfusion hb
    | bool bb => exact Except.noConfusion hb
    | null => exact Except.noConfusion hb
    | arr items => exact Except.noConfusion hb

/-- Parsed object for the C7 witness: a nested object under
`short_summary` and a list under `comprehensive_summary`. -/
def fieldsC7 : List (String × Json) :=
  [("short_summary", Json.obj [("a", Json.num 1)]),
   ("comprehensive_summary", Json.arr [Json.str "x", Json.str "y"])]

theorem c7_coercion_and_nonempty_witness :
    dictGet fieldsC7 "short_summary" = some (Json.obj [("a", Json.num 1)]) ∧
    dictGet fieldsC7 "comprehensive_summary" =
      some (Json.arr [Json.str "x", Json.str "y"]) ∧
    bundleFromParsed (Json.obj fieldsC7) =
      .ok { short_summary := "\x7b\n  \"a\": 1\n\x7d", comprehensive_summary := "x y" } := by
  have h := (c7_coercion_and_nonempty fieldsC7 (Json.obj [("a", Json.num 1)])
    (Json.arr [Json.str "x", Json.str "y"]) rfl rfl).1
  refine ⟨rfl, rfl, ?_⟩
  rw [h]
  rfl

/-- C8: when a remote state backend (S3 bucket) is configured (and the S3
client library is importable), `load_last_video_id` and `save_last_video_id`
prefer it; on any remote error both fall back to the local file backend and
log a warning, and both still return normally, so remote unavailability
never aborts a cycle. -/
theorem c8_remote_preferred_with_local_fallback (cfg : StateConfig)
    (s3 : S3Env) (bucket : String)
    (haws : cfg.use_aws = true)
    (hbucket : cfg.s3_state_bucket = some bucket)
    (hbne : ¬(bucket = ""))
    (havail : s3.available = true) :
    (∀ st, s3.loadResult = .ok st →
      load_last_video_id cfg s3 =
        ([LEv.s3Load], .ok (dictGet st "last_video_id"))) ∧
    (∀ e, s3.loadResult = .error e →
      load_last_video_id cfg s3 =
        ([LEv.s3Load, LEv.warnFallback, LEv.localRead],
         .ok (dictGet (load_state_file cfg.localFile) "last_video_id"))) ∧
    (s3.saveResult = .ok () →
      ∀ v t, save_last_video_id cfg s3 v t = ([LEv.s3Save], .ok ())) ∧
    (∀ e, s3.saveResult = .error e →
      ∀ v t, save_last_video_id cfg s3 v t =
        ([LEv.s3Save, LEv.warnFallback, LEv.localWrite v t], .ok ())) := by
  have hcond : (cfg.use_aws && optStrTruthy cfg.s3_state_bucket) = true := by
    rw [haws, hbucket]
    simp [optStrTruthy, hbne]
  refine ⟨?_, ?_, ?_, ?_⟩
  · intro st hld
    simp [load_last_video_id, hcond, havail, hld]
  · intro e hld
    simp [load_last_video_id, hcond, havail, hld]
  · intro hsv v t
    simp [save_last_video_id, hcond, havail, hsv]
  · intro e hsv v t
    simp [save_last_video_id, hcond, havail, hsv]

/-- State configuration for the C8 witness: S3 configured, local file
present. -/
def cfgC8 : StateConfig :=
  ⟨true, some "bucket", some "\x7b\"last_video_id\": \"L\"\x7d"⟩

/-- S3 environment for the C8 witness: boto3 importable but every remote
call fails. -/
def s3C8 : S3Env := ⟨true, .error "s3 down", .error "s3 down"⟩

theorem c8_remote_preferred_with_local_fallback_witness :
    cfgC8.use_aws = true ∧ cfgC8.s3_state_bucket = some "bucket" ∧
    s3C8.available = true ∧ s3C8.loadResult = .error "s3 down" ∧
    load_last_video_id cfgC8 s3C8 =
      ([LEv.s3Load, LEv.warnFallback, LEv.localRead],
       .ok (some (Json.str "L"))) ∧
    save_last_video_id cfgC8 s3C8 "B" "Y" =
      ([LEv.s3Save, LEv.warnFallback, LEv.localWrite "B" "Y"], .ok ()) := by
  have h := c8_remote_preferred_with_local_fallback cfgC8 s3C8 "bucket" rfl rfl
    (by simp) rfl
  refine ⟨rfl, rfl, rfl, rfl, ?_, h.2.2.2 "s3 down" rfl "B" "Y"⟩
  rw [h.2.1 "s3 down" rfl]
  rfl

theorem escapeChars_count_lt (l : List Char) : (escapeChars l).count '<' = 0 := by
  induction l with
  | nil => rfl
  | cons c rest ih =>
    simp only [escapeChars, List.count_append, ih]
    split_ifs with h1 h2 h3 h4 h5
    · rfl
    · rfl
    · rfl
    · rfl
    · rfl
    · simp [List.count_cons, h2]

theorem escapeChars_count_gt (l : List Char) : (escapeChars l).count '>' = 0 := by
  induction l with
  | nil => rfl
  | cons c rest ih =>
    simp only [escapeChars, List.count_append, ih]
    split_ifs with h1 h2 h3 h4 h5
    · rfl
    · rfl
    · rfl
    · rfl
    · rfl
    · simp [List.count_cons, h3]

theorem escapeChars_count_nl (l : List Char) :
    (escapeChars l).count '\n' = l.count '\n' := by
  induction l with
  | nil => rfl
  | cons c rest ih =>
    by_cases h1 : c = '&'
    · subst h1
      simp +decide [escapeChars, List.count_append, ih, List.count_cons]
    · by_cases h2 : c = '<'
      · subst h2
        simp +decide [escapeChars, List.count_append, ih, List.count_cons]
      · by_cases h3 : c = '>'
        · subst h3
          simp +decide [escapeChars, List.count_append, ih, List.count_cons]
        · by_cases h4 : c = '"'
          · subst h4
            simp +decide [escapeChars, List.count_append, ih, List.count_cons]
          · by_cases h5 : c = '\x27'
            · subst h5
              simp +decide [escapeChars, List.count_append, ih, List.count_cons]
            · simp [escapeChars, h1, h2, h3, h4, h5, List.count_append, ih,
                List.count_cons]
              try omega

theorem brChars_count_lt (l : List Char) :
    (brChars l).count '<' = l.count '\n' + l.count '<' := by
  induction l with
  | nil => rfl
  | cons c rest ih =>
    by_cases h1 : c = '\n'
    · subst h1
      simp +decide [brChars, List.count_append, ih, List.count_cons]
      try omega
    · simp [brChars, h1, List.count_append, ih, List.count_cons]
      try omega

theorem html_escape_count_lt (s : String) : (html_escape s).data.count '<' = 0 :=
  escapeChars_count_lt s.data

theorem html_escape_count_gt (s : String) : (html_escape s).data.count '>' = 0 :=
  escapeChars_count_gt s.data

theorem html_escape_count_nl (s : String) :
    (html_escape s).data.count '\n' = s.data.count '\n' :=
  escapeChars_count_nl s.data

theorem newlineToBr_html_escape_count_lt (s : String) :
    (newlineToBr (html_escape s)).data.count '<' = s.data.count '\n' := by
  show (brChars (html_escape s).data).count '<' = s.data.count '\n'
  rw [brChars_count_lt, html_escape_count_lt, html_escape_count_nl]
  omega

/-- C10: the HTML variant of each email body embeds the video title, the
summaries, and the error reason only after HTML-escaping them, while the
plain-text variant embeds them verbatim.  Escaping removes every raw
angle bracket, so the number of raw tag-opening characters in each HTML
body is independent of the title/summary/reason inputs except for the
`<br/>` tags substituted for embedded newlines; and each input occurs
verbatim as a substring of the plain-text body. -/
theorem c10_html_bodies_escape_inputs :
    (∀ s, (html_escape s).data.count '<' = 0 ∧
      (html_escape s).data.count '>' = 0) ∧
    (∀ t t2 s s2 c c2, c.data.count '\n' = c2.data.count '\n' →
      (format_html_body t ⟨s, c⟩).data.count '<' =
        (format_html_body t2 ⟨s2, c2⟩).data.count '<') ∧
    (∀ t t2 r r2, r.data.count '\n' = r2.data.count '\n' →
      (format_error_html_body t r).data.count '<' =
        (format_error_html_body t2 r2).data.count '<') ∧
    (∀ t t2, ¬(t = "") → ¬(t2 = "") →
      (format_no_new_videos_html_body (some t)).data.count '<' =
        (format_no_new_videos_html_body (some t2)).data.count '<') ∧
    (∀ t s c, t.data <:+: (format_plain_text t ⟨s, c⟩).data ∧
      s.data <:+: (format_plain_text t ⟨s, c⟩).data ∧
      c.data <:+: (format_plain_text t ⟨s, c⟩).data) ∧
    (∀ t r, r.data <:+: (format_error_plain_text t r).data) := by
  refine ⟨fun s => ⟨html_escape_count_lt s, html_escape_count_gt s⟩,
    ?_, ?_, ?_, ?_, ?_⟩
  · intro t t2 s s2 c c2 hc
    simp only [format_html_body, String.data_append, List.count_append,
      html_escape_count_lt, newlineToBr_html_escape_count_lt, hc]
  · intro t t2 r r2 hr
    simp only [format_error_html_body, String.data_append, List.count_append,
      html_escape_count_lt, newlineToBr_html_escape_count_lt, hr]
  · intro t t2 ht ht2
    simp only [format_no_new_videos_html_body, if_neg ht, if_neg ht2,
      String.data_append, List.count_append, html_escape_count_lt]
  · intro t s c
    refine ⟨⟨"Summaries for: ".data,
        ("\n\nShort summary:\n" ++ s ++ "\n\nComprehensive summary:\n" ++ c
          ++ "\n").data, ?_⟩,
      ⟨("Summaries for: " ++ t ++ "\n\nShort summary:\n").data,
        ("\n\nComprehensive summary:\n" ++ c ++ "\n").data, ?_⟩,
      ⟨("Summaries for: " ++ t ++ "\n\nShort summary:\n" ++ s
          ++ "\n\nComprehensive summary:\n").data, "\n".data, ?_⟩⟩ <;>
      simp [format_plain_text, String.data_append]
  · intro t r
    exact ⟨("Error generating summaries for: " ++ t ++ "\n\nReason: ").data,
      "\n\nPlease check the logs for more details.".data,
      by simp [format_error_plain_text, String.data_append]⟩

/-- C10 witness at concrete dangerous inputs. -/
theorem c10_html_bodies_escape_inputs_witness :
    ("<a&b>" ≠ "") ∧ ("x" ≠ "") ∧
    (("part1\npart2" : String).data.count '\n' =
      ("other\nlines" : String).data.count '\n') ∧
    (format_html_body "<T&>" ⟨"s<", "part1\npart2"⟩).data.count '<' =
      (format_html_body "plain" ⟨"plain", "other\nlines"⟩).data.count '<' ∧
    (format_no_new_videos_html_body (some "<a&b>")).data.count '<' =
      (format_no_new_videos_html_body (some "x")).data.count '<' := by
  have h := c10_html_bodies_escape_inputs
  refine ⟨by simp, by simp, rfl, ?_, ?_⟩
  · exact h.2.1 "<T&>" "plain" "s<" "plain" "part1\npart2" "other\nlines" rfl
  · exact h.2.2.2.1 "<a&b>" "x" (by simp) (by simp)

end VideoSummarizer
